import Mathlib

/-!
Verification development for the a-share data-access layer.

The definitions below are shallow embeddings of the Python source:
* `runGuard` embeds `baostock_login_context` (src/src/utils.py),
  modelled as a trace of file-descriptor / provider events plus the
  final outcome, following Python context-manager semantics (an
  exception raised inside the `finally` block replaces the pending
  outcome).  The `os.dup`/`os.dup2`/`os.open` descriptor operations are
  modelled as always succeeding; only the provider calls
  (`bs.login()`, `bs.logout()`) carry a failure mode, which is what the
  claims under study quantify over.
-/

namespace AShare

/-- Events observable during one run of the session guard: descriptor
bookkeeping, provider login/logout calls, and the caller body. -/
inductive FdEvent where
  | saveFd
  | redirectNull
  | restoreFd
  | loginCall
  | bodyRun
  | logoutCall
deriving DecidableEq

/-- Result of the caller-supplied body: a normal value or an exception. -/
inductive BodyResult where
  | val (v : Nat)
  | exc (e : String)
deriving DecidableEq

/-- One possible behaviour of the provider and the body during a guard
invocation: whether `bs.login()` raises, the status code and message it
returns otherwise, what the body does, and whether `bs.logout()` raises. -/
structure GuardBehavior where
  loginRaises : Option String
  loginCode : String
  loginMsg : String
  body : BodyResult
  logoutRaises : Option String
deriving DecidableEq

/-- Final outcome of the whole `with baostock_login_context(): body` block. -/
inductive GuardOutcome where
  | ok (v : Nat)
  | raised (e : String)
deriving DecidableEq

/-- Outcome the body alone would produce. -/
def bodyOutcome : BodyResult → GuardOutcome
  | .val v => .ok v
  | .exc e => .raised e

/-- Trace and outcome of `baostock_login_context` wrapped around a body,
following src/src/utils.py lines 40-80.  Entry: save the stdout fd,
redirect to devnull, call `bs.login()`.  If the login call raises, the
exception propagates at once (no restore, no logout).  If it returns,
stdout is restored, then a non-zero status raises `LoginError`.
Otherwise the body runs, and the `finally` block saves/redirects again
and calls `bs.logout()`; if the logout call raises, that exception
replaces the pending outcome and the final restore is skipped. -/
def runGuard (b : GuardBehavior) : List FdEvent × GuardOutcome :=
  let pre := [FdEvent.saveFd, FdEvent.redirectNull, FdEvent.loginCall]
  match b.loginRaises with
  | some e => (pre, .raised e)
  | none =>
    let pre2 := pre ++ [FdEvent.restoreFd]
    if b.loginCode ≠ "0" then
      (pre2, .raised ("LoginError: Baostock 登录失败: " ++ b.loginMsg))
    else
      let mid := pre2 ++ [FdEvent.bodyRun, FdEvent.saveFd, FdEvent.redirectNull,
        FdEvent.logoutCall]
      match b.logoutRaises with
      | some e => (mid, .raised e)
      | none => (mid ++ [FdEvent.restoreFd], bodyOutcome b.body)

/-- Whether stdout is still redirected to devnull after replaying a trace. -/
def redirectedAfter (tr : List FdEvent) : Bool :=
  tr.foldl
    (fun st ev =>
      match ev with
      | FdEvent.redirectNull => true
      | FdEvent.restoreFd => false
      | _ => st)
    false

/-- Redirection state of stdout at the first occurrence of `target` in a
trace, or `none` if the event never occurs. -/
def redirectStateAt (target : FdEvent) (tr : List FdEvent) : Option Bool :=
  (tr.foldl
    (fun (acc : Bool × Option Bool) ev =>
      let st :=
        match ev with
        | FdEvent.redirectNull => true
        | FdEvent.restoreFd => false
        | _ => acc.1
      if ev = target ∧ acc.2 = none then (st, some acc.1) else (st, acc.2))
    (false, none)).2

/-- Login succeeded: the call returned (did not raise) with status code 0. -/
def loginSucceeds (b : GuardBehavior) : Prop :=
  b.loginRaises = none ∧ b.loginCode = "0"

/-- Behaviour where login succeeds, the body returns 7, and the logout
call itself raises. -/
def guardLogoutBoom : GuardBehavior :=
  ⟨none, "0", "", BodyResult.val 7, some "logout boom"⟩

/-- Behaviour where the `bs.login()` call itself raises an exception. -/
def guardLoginBoom : GuardBehavior :=
  ⟨some "network down", "0", "", BodyResult.val 0, none⟩

/-- Behaviour where login succeeds, the body returns 0, and logout returns. -/
def guardClean : GuardBehavior :=
  ⟨none, "0", "", BodyResult.val 0, none⟩

/-!
Error classification and the generic fetch pattern
(src/src/baostock_data_source.py).  Each `_fetch_*` definition embeds the
body of the corresponding Python helper inside its session-guard scope:
check the status code, classify a failure, drain the cursor rows, raise
NoData on an empty result set, and otherwise assemble the tabular result
in the provider's column order.  Log statements and the human-readable
message payloads of the raised errors are elided: they do not affect
control flow, and the claims quantify over the error kinds.
-/

/-- Raw provider response: status code, status message, column names, and
the rows the cursor yields when drained. -/
structure ProviderResp where
  error_code : String
  error_msg : String
  fields : List String
  rows : List (List String)
deriving DecidableEq

/-- Tabular result assembled from a drained cursor. -/
structure Frame where
  cols : List String
  rows : List (List String)
deriving DecidableEq

/-- Kinds of classified errors: `noDataFound`, `dataSource` (the spec's
ProviderError), `login`, and `valueError` modelling Python's `ValueError`
(the spec's InvalidInput). -/
inductive DataError where
  | noDataFound
  | dataSource
  | login
  | valueError
deriving DecidableEq

/-- ASCII lowercasing, modelling `str.lower()` on the provider's ASCII
status messages. -/
def lowerAscii (s : String) : String := String.mk (s.data.map Char.toLower)

/-- Contiguous-subsequence (substring) test on character lists, modelling
Python's `needle in haystack` on strings. -/
def containsSeq (needle : List Char) : List Char → Bool
  | [] => needle.isPrefixOf []
  | c :: rest => needle.isPrefixOf (c :: rest) || containsSeq needle rest

/-- Status test from the source: `"no record found" in rs.error_msg.lower()
or rs.error_code == '10002'`. -/
def isNoDataStatus (code msg : String) : Bool :=
  containsSeq (("no record found").data) (lowerAscii msg).data || code == "10002"

/-- Classification rule written from the spec's words (NoData when the code
equals the sentinel '10002' or the message contains "no record found"
case-insensitively; ProviderError for any other non-success code), used to
compare the source's per-method behaviour against the spec. -/
def classifySpecRule (code msg : String) : DataError :=
  if code = "10002" ∨ containsSeq (("no record found").data) (lowerAscii msg).data = true
  then DataError.noDataFound else DataError.dataSource

/-- Body of `_fetch_financial_data` (lines 51-78). -/
def _fetch_financial_data (resp : ProviderResp) : Except DataError Frame :=
  if resp.error_code ≠ "0" then
    if isNoDataStatus resp.error_code resp.error_msg then Except.error DataError.noDataFound
    else Except.error DataError.dataSource
  else if resp.rows.isEmpty then Except.error DataError.noDataFound
  else Except.ok ⟨resp.fields, resp.rows⟩

/-- Body of `_fetch_index_constituent_data` (lines 109-136), verbatim the
same status/drain/empty logic as the financial fetch. -/
def _fetch_index_constituent_data (resp : ProviderResp) : Except DataError Frame :=
  if resp.error_code ≠ "0" then
    if isNoDataStatus resp.error_code resp.error_msg then Except.error DataError.noDataFound
    else Except.error DataError.dataSource
  else if resp.rows.isEmpty then Except.error DataError.noDataFound
  else Except.ok ⟨resp.fields, resp.rows⟩

/-- Body of `_fetch_macro_data` (lines 172-200), verbatim the same
status/drain/empty logic as the financial fetch. -/
def _fetch_macro_data (resp : ProviderResp) : Except DataError Frame :=
  if resp.error_code ≠ "0" then
    if isNoDataStatus resp.error_code resp.error_msg then Except.error DataError.noDataFound
    else Except.error DataError.dataSource
  else if resp.rows.isEmpty then Except.error DataError.noDataFound
  else Except.ok ⟨resp.fields, resp.rows⟩

/-- Response handling of `get_historical_k_data` after the query call
(lines 256-278), same status/drain/empty logic again. -/
def get_historical_k_data_query (resp : ProviderResp) : Except DataError Frame :=
  if resp.error_code ≠ "0" then
    if isNoDataStatus resp.error_code resp.error_msg then Except.error DataError.noDataFound
    else Except.error DataError.dataSource
  else if resp.rows.isEmpty then Except.error DataError.noDataFound
  else Except.ok ⟨resp.fields, resp.rows⟩

/-- Body of `BaostockDataSource.get_trade_dates` (lines 605-628): unlike
every other fetcher, a non-success status code always raises
`DataSourceError`, with no NoData classification of the code or message. -/
def get_trade_dates (resp : ProviderResp) : Except DataError Frame :=
  if resp.error_code ≠ "0" then Except.error DataError.dataSource
  else if resp.rows.isEmpty then Except.error DataError.noDataFound
  else Except.ok ⟨resp.fields, resp.rows⟩

/-- Provider response carrying the NoData sentinel status code. -/
def sentinelResp : ProviderResp := ⟨"10002", "no record found", [], []⟩

/-!
Trading-calendar reasoner (src/src/tools/date_utils.py).  The reasoner's
tools call `active_data_source.get_trade_dates(start, end)` and catch any
exception; the call is abstracted as an oracle
`String → String → Except String Frame` mapping the (start, end) window
to either the returned frame or the string rendering of the raised
exception.
-/

/-- Gregorian calendar date. -/
structure Date where
  year : Int
  month : Nat
  day : Nat
deriving DecidableEq

/-- Gregorian leap-year rule (as in Python's `calendar` module). -/
def isLeapYear (y : Int) : Bool :=
  y % 4 == 0 && (y % 100 != 0 || y % 400 == 0)

/-- Number of days in a month: `calendar.monthrange(year, month)[1]`. -/
def daysInMonth (y : Int) (m : Nat) : Nat :=
  if m = 2 then (if isLeapYear y then 29 else 28)
  else if m = 4 ∨ m = 6 ∨ m = 9 ∨ m = 11 then 30
  else 31

/-- Previous calendar day. -/
def prevDay (d : Date) : Date :=
  if 2 ≤ d.day then ⟨d.year, d.month, d.day - 1⟩
  else if 2 ≤ d.month then ⟨d.year, d.month - 1, daysInMonth d.year (d.month - 1)⟩
  else ⟨d.year - 1, 12, 31⟩

/-- Next calendar day. -/
def nextDay (d : Date) : Date :=
  if d.day < daysInMonth d.year d.month then ⟨d.year, d.month, d.day + 1⟩
  else if d.month < 12 then ⟨d.year, d.month + 1, 1⟩
  else ⟨d.year + 1, 1, 1⟩

/-- `d - timedelta(days=n)`. -/
def subDays (d : Date) (n : Nat) : Date := prevDay^[n] d

/-- `d + timedelta(days=n)`. -/
def addDays (d : Date) (n : Nat) : Date := nextDay^[n] d

/-- Two-digit zero padding, as in `"%02d"` and `strftime` month/day. -/
def pad2 (n : Nat) : String :=
  if n < 10 then "0" ++ toString n else toString n

/-- Four-digit zero padding of a (non-negative) year, as in `strftime` `%Y`. -/
def pad4 (y : Int) : String :=
  let s := toString y.toNat
  String.mk (List.replicate (4 - s.length) '0') ++ s

/-- `d.strftime("%Y-%m-%d")`. -/
def formatDate (d : Date) : String :=
  pad4 d.year ++ "-" ++ pad2 d.month ++ "-" ++ pad2 d.day

/-- Numeric value of an ASCII digit character. -/
def digitVal (c : Char) : Nat := c.toNat - 48

/-- Parse of a `YYYY-MM-DD` string with calendar validation, modelling
`datetime.strptime(date, "%Y-%m-%d")` on canonical zero-padded input (the
only shape this repository produces and documents). -/
def parseDate (s : String) : Option Date :=
  match s.data with
  | [y1, y2, y3, y4, s1, m1, m2, s2, d1, d2] =>
    if s1 = '-' ∧ s2 = '-' ∧ [y1, y2, y3, y4, m1, m2, d1, d2].all Char.isDigit = true then
      let y : Int := Int.ofNat
        (digitVal y1 * 1000 + digitVal y2 * 100 + digitVal y3 * 10 + digitVal y4)
      let m := digitVal m1 * 10 + digitVal m2
      let dd := digitVal d1 * 10 + digitVal d2
      if 1 ≤ m ∧ m ≤ 12 ∧ 1 ≤ dd ∧ dd ≤ daysInMonth y m then some ⟨y, m, dd⟩ else none
    else none
  | _ => none

/-- Value of `row[col]` under the frame's column list (pandas positional
lookup by column name); a missing lookup yields the empty string (the code
paths proved below never perform one). -/
def rowCell (cols : List String) (row : List String) (col : String) : String :=
  row.getD (cols.indexOf col) ""

/-- pandas `df.empty`: true when either axis has length zero. -/
def frameEmpty (df : Frame) : Bool := df.rows.isEmpty || df.cols.isEmpty

/-- Flag-column choice from the source:
`'is_trading_day' if 'is_trading_day' in df.columns else df.columns[-1]`. -/
def flagColOf (cols : List String) : String :=
  if cols.contains ("is_trading_day") then "is_trading_day" else cols.getLastD ""

/-- Day-column choice from the source:
`'calendar_date' if 'calendar_date' in df.columns else df.columns[0]`. -/
def dayColOf (cols : List String) : String :=
  if cols.contains ("calendar_date") then "calendar_date" else cols.headD ""

/-- Lexicographic comparison of character lists by code point, modelling
Python's `<` on strings. -/
def ltChars : List Char → List Char → Bool
  | [], [] => false
  | [], _ :: _ => true
  | _ :: _, [] => false
  | a :: as, b :: bs => if a < b then true else if b < a then false else ltChars as bs

/-- Python's `<` on strings. -/
def ltStr (a b : String) : Bool := ltChars a.data b.data

/-- Python's `<=` on strings: strictly below or equal. -/
def leStr (a b : String) : Bool := ltStr a b || a == b

/-- Larger of two date strings, as picked pairwise by
`sort_values` + `iloc[-1]`. -/
def chooseLater (a b : String) : String := if ltStr a b then b else a

/-- Smaller of two date strings, as picked pairwise by
`sort_values` + `iloc[0]`. -/
def chooseEarlier (a b : String) : String := if ltStr b a then b else a

/-- Stand-in for the text of the `ValueError` that `strptime` raises on an
unparsable date; the claims never depend on the exact interpolated text. -/
def parseErrorText : String := "ValueError"

/-- `is_trading_day` (lines 144-167): fetch the single-day window
`[date, date]`; an empty frame means "no"; otherwise read the flag column
of the first row; any raised exception is caught and rendered as an
error-message string `"错误: " ++ e`. -/
def is_trading_day (date : String) (fetch : String → String → Except String Frame) : String :=
  match fetch date date with
  | Except.error e => "错误: " ++ e
  | Except.ok df =>
    if frameEmpty df then "否"
    else if rowCell df.cols (df.rows.getD 0 []) (flagColOf df.cols) = "1" then "是" else "否"

/-- Candidate filter and selection of `previous_trading_day` once the
window frame is available (lines 186-193): rows flagged `'1'` with day
strictly below the anchor; `sort_values` then `iloc[-1]` returns the
maximum day value, modelled as a fold. -/
def prevCore (date : String) (df : Frame) : String :=
  if frameEmpty df then date
  else
    let fc := flagColOf df.cols
    let dc := dayColOf df.cols
    let candidates := df.rows.filter
      (fun r => rowCell df.cols r fc == "1" && ltStr (rowCell df.cols r dc) date)
    match candidates with
    | [] => date
    | r :: rs =>
      (rs.map (fun row => rowCell df.cols row dc)).foldl chooseLater
        (rowCell df.cols r dc)

/-- Candidate filter and selection of `next_trading_day` once the window
frame is available (lines 215-222): rows flagged `'1'` with day strictly
above the anchor; `sort_values` then `iloc[0]` returns the minimum day
value, modelled as a fold. -/
def nextCore (date : String) (df : Frame) : String :=
  if frameEmpty df then date
  else
    let fc := flagColOf df.cols
    let dc := dayColOf df.cols
    let candidates := df.rows.filter
      (fun r => rowCell df.cols r fc == "1" && ltStr date (rowCell df.cols r dc))
    match candidates with
    | [] => date
    | r :: rs =>
      (rs.map (fun row => rowCell df.cols row dc)).foldl chooseEarlier
        (rowCell df.cols r dc)

/-- `previous_trading_day` (lines 170-196): parse the anchor, query the
window `[anchor - 30 days, anchor]`, then select; exceptions (parse
failure or a raised facade error) are caught and rendered as
`"错误: " ++ e`. -/
def previous_trading_day (date : String)
    (fetch : String → String → Except String Frame) : String :=
  match parseDate date with
  | none => "错误: " ++ parseErrorText
  | some d =>
    match fetch (formatDate (subDays d 30)) date with
    | Except.error e => "错误: " ++ e
    | Except.ok df => prevCore date df

/-- `next_trading_day` (lines 199-225): parse the anchor, query the window
`[anchor, anchor + 30 days]`, then select; exceptions are caught and
rendered as `"错误: " ++ e`. -/
def next_trading_day (date : String)
    (fetch : String → String → Except String Frame) : String :=
  match parseDate date with
  | none => "错误: " ++ parseErrorText
  | some d =>
    match fetch date (formatDate (addDays d 30)) with
    | Except.error e => "错误: " ++ e
    | Except.ok df => nextCore date df

/-- `get_latest_trading_date` (lines 25-58): query the current month (day 1
to day 28, fixed literal columns `is_trading_day` and `calendar_date`),
scan flagged dates on/before today for the maximum, fall back to today's
date when none exists; every exception — including the KeyError a missing
column raises — is caught and today's date returned. -/
def get_latest_trading_date (today : Date)
    (fetch : String → String → Except String Frame) : String :=
  let todayStr := formatDate today
  match fetch (formatDate ⟨today.year, today.month, 1⟩)
      (formatDate ⟨today.year, today.month, 28⟩) with
  | Except.error _ => todayStr
  | Except.ok df =>
    if df.cols.contains ("is_trading_day") = false ∨
        df.cols.contains ("calendar_date") = false then todayStr
    else
      let valid := (df.rows.filter
        (fun r => rowCell df.cols r ("is_trading_day") == "1")).map
        (fun r => rowCell df.cols r ("calendar_date"))
      let latest := valid.foldl
        (fun acc dstr =>
          if leStr dstr todayStr &&
              (match acc with
               | none => true
               | some l => ltStr l dstr) then some dstr else acc)
        (none : Option String)
      match latest with
      | some l => l
      | none => todayStr

/-- Spec-side candidate predicate for `previous_trading_day`: a window row
flagged as a trading day whose date is strictly below the anchor. -/
def prevCandidate (date : String) (df : Frame) (row : List String) : Prop :=
  rowCell df.cols row (flagColOf df.cols) = "1" ∧
    ltStr (rowCell df.cols row (dayColOf df.cols)) date = true

/-- Spec-side candidate predicate for `next_trading_day`: a window row
flagged as a trading day whose date is strictly above the anchor. -/
def nextCandidate (date : String) (df : Frame) (row : List String) : Prop :=
  rowCell df.cols row (flagColOf df.cols) = "1" ∧
    ltStr date (rowCell df.cols row (dayColOf df.cols)) = true

/-- Concrete calendar window used as a witness input. -/
def demoCalendar : Frame :=
  ⟨["calendar_date", "is_trading_day"],
   [["2025-06-12", "1"], ["2025-06-13", "1"], ["2025-06-14", "0"],
    ["2025-06-15", "1"]]⟩

/-- Result record of `get_market_analysis_timeframe`: the Python function
returns only the final label string (`render`); the structure additionally
records the start/middle/end values the computation binds on the way,
which the claims quantify over. -/
structure Timeframe where
  startYear : Int
  startMonth : Nat
  middleYear : Int
  middleMonth : Nat
  endYear : Int
  endMonth : Nat
  endDay : Nat
  startIso : String
  endIso : String
  render : String
deriving DecidableEq

/-- `get_market_analysis_timeframe` (lines 61-141) with `now` the anchor
date.  The function is total: every branch constructs a valid
(year, month) pair for anchor months 1-12, mirroring the absence of any
error path in the source (the final `else` catches every period keyword
outside the four documented ones). -/
def get_market_analysis_timeframe (period : String) (now : Date) : Timeframe :=
  let p :=
    if period = "recent" then
      if now.day < 15 then
        if now.month = 1 then ((now.year - 1, 11), (now.year - 1, 12))
        else if now.month = 2 then ((now.year, 1), (now.year, 1))
        else ((now.year, now.month - 2), (now.year, now.month - 1))
      else
        if now.month = 1 then ((now.year - 1, 12), (now.year - 1, 12))
        else ((now.year, now.month - 1), (now.year, now.month - 1))
    else if period = "quarter" then
      let s := if now.month ≤ 3 then (now.year - 1, now.month + 9)
        else (now.year, now.month - 3)
      (s, s)
    else if period = "half_year" then
      let s := if now.month ≤ 6 then (now.year - 1, now.month + 6)
        else (now.year, now.month - 6)
      (s, if s.2 ≤ 9 then (s.1, s.2 + 3) else (s.1 + 1, s.2 - 9))
    else if period = "year" then
      let s := (now.year - 1, now.month)
      (s, if s.2 ≤ 6 then (s.1, s.2 + 6) else (s.1 + 1, s.2 - 6))
    else
      if now.month = 1 then ((now.year - 1, 12), (now.year - 1, 12))
      else ((now.year, now.month - 1), (now.year, now.month - 1))
  let sy := p.1.1
  let sm := p.1.2
  let endDay := min (daysInMonth now.year now.month) now.day
  let endIso := toString now.year ++ "-" ++ pad2 now.month ++ "-" ++ pad2 endDay
  let startIso := toString sy ++ "-" ++ pad2 sm ++ "-01"
  let dateRange :=
    if sy ≠ now.year then
      toString sy ++ "年" ++ toString sm ++ "月-" ++ toString now.year ++ "年" ++
        toString now.month ++ "月"
    else if p.2.2 ≠ sm ∧ p.2.2 ≠ now.month then
      toString sy ++ "年" ++ toString sm ++ "月-" ++ toString p.2.2 ++ "月-" ++
        toString now.month ++ "月"
    else if sm ≠ now.month then
      toString sy ++ "年" ++ toString sm ++ "月-" ++ toString now.month ++ "月"
    else toString sy ++ "年" ++ toString sm ++ "月"
  ⟨sy, sm, p.2.1, p.2.2, now.year, now.month, endDay, startIso, endIso,
    dateRange ++ " (ISO: " ++ startIso ++ " to " ++ endIso ++ ")"⟩

/-!
Tool-layer validation (src/src/tools/base.py) and the facade's field
handling (src/src/baostock_data_source.py).  The data-source method and
the output formatter are abstracted as oracles; alongside its output each
modelled entry point returns the number of provider calls it made, which
the claims about "validation before any provider call" quantify over.
Error-message strings keep their fixed prefixes; interpolated exception
text and quotation marks are elided.
-/

/-- A Python value in a field-selection list: a string, or anything else
(failing `isinstance(f, str)`). -/
inductive PyVal where
  | pystr (s : String)
  | pyother
deriving DecidableEq

/-- Default K-line fields (`DEFAULT_K_FIELDS`, lines 12-16). -/
def DEFAULT_K_FIELDS : List String :=
  ["date", "code", "open", "high", "low", "close", "preclose",
   "volume", "amount", "adjustflag", "turn", "tradestatus",
   "pctChg", "peTTM", "pbMRQ", "psTTM", "pcfNcfTTM", "isST"]

/-- `BaostockDataSource._format_fields` (lines 218-227): `None` or an empty
list falls back to the defaults; a list with any non-string entry raises
`ValueError`; otherwise the fields are joined with commas. -/
def _format_fields (fields : Option (List PyVal)) (defaults : List String) :
    Except DataError String :=
  match fields with
  | none => Except.ok (String.intercalate (",") defaults)
  | some fs =>
    if fs.isEmpty then Except.ok (String.intercalate (",") defaults)
    else if fs.all (fun f => match f with | PyVal.pystr _ => true | PyVal.pyother => false)
    then
      Except.ok (String.intercalate (",")
        (fs.map (fun f => match f with | PyVal.pystr s => s | PyVal.pyother => "")))
    else Except.error DataError.valueError

/-- Python `str.isdigit` restricted to the ASCII digits the year check
uses: non-empty and all digits. -/
def isdigitStr (s : String) : Bool := !s.data.isEmpty && s.data.all Char.isDigit

/-- `call_financial_data_tool` (src/src/tools/base.py lines 42-72): the
year and quarter are validated before the data-source method runs; the
second component counts how many times the method (and hence the provider)
was invoked.  `render` abstracts `format_table_output`. -/
def call_financial_data_tool (year : String) (quarter : Int)
    (method : String → Int → Except DataError Frame)
    (render : Frame → String) : String × Nat :=
  if isdigitStr year = false ∨ year.length ≠ 4 then
    ("错误: 无效的年份 " ++ year ++ "。请输入4位数字的年份。", 0)
  else if quarter < 1 ∨ 4 < quarter then
    ("错误: 无效的季度 " ++ toString quarter ++ "。必须在 1 到 4 之间。", 0)
  else
    match method year quarter with
    | Except.ok df => (render df, 1)
    | Except.error DataError.noDataFound => ("错误: 未找到数据。", 1)
    | Except.error DataError.login => ("错误: 无法连接到数据源。", 1)
    | Except.error DataError.dataSource => ("错误: 获取数据时发生错误。", 1)
    | Except.error DataError.valueError => ("错误: 无效的输入参数。", 1)

/-- `get_historical_k_data` (lines 229-288): the field list is formatted —
and validated — before the session guard opens; only then do login and the
provider query run.  `loginOk` abstracts whether `bs.login()` succeeds,
`resp` is the query's response; the second component counts provider-query
calls. -/
def get_historical_k_data (fields : Option (List PyVal)) (loginOk : Bool)
    (resp : ProviderResp) : Except DataError Frame × Nat :=
  match _format_fields fields DEFAULT_K_FIELDS with
  | Except.error e => (Except.error e, 0)
  | Except.ok _ =>
    if loginOk = false then (Except.error DataError.login, 0)
    else (get_historical_k_data_query resp, 1)

/-- `get_stock_basic_info` (lines 290-344): no up-front validation of
`fields`; the provider is queried first, then the requested fields are
intersected with the returned columns (a non-string entry simply fails the
membership test), and only an empty intersection raises `ValueError`. -/
def get_stock_basic_info (fields : Option (List PyVal)) (loginOk : Bool)
    (resp : ProviderResp) : Except DataError Frame × Nat :=
  if loginOk = false then (Except.error DataError.login, 0)
  else if resp.error_code ≠ "0" then
    (if isNoDataStatus resp.error_code resp.error_msg then
      Except.error DataError.noDataFound
     else Except.error DataError.dataSource, 1)
  else if resp.rows.isEmpty then (Except.error DataError.noDataFound, 1)
  else
    match fields with
    | none => (Except.ok ⟨resp.fields, resp.rows⟩, 1)
    | some fs =>
      if fs.isEmpty then (Except.ok ⟨resp.fields, resp.rows⟩, 1)
      else
        let avail := fs.filterMap
          (fun f => match f with
            | PyVal.pystr s => if resp.fields.contains s then some s else none
            | PyVal.pyother => none)
        if avail.isEmpty then (Except.error DataError.valueError, 1)
        else
          (Except.ok ⟨avail,
            resp.rows.map (fun row => avail.map (fun c => rowCell resp.fields row c))⟩, 1)

/-!
`normalize_stock_code` (src/src/tools/helpers.py lines 20-67).  The three
regular expressions are modelled as explicit matchers on the stripped
character list; the inline `(?i)` group flag of the second pattern is
modelled with its global case-insensitive semantics (pre-3.11 Python
behaviour, which the function's docstring examples rely on).  Quotation
marks inside the error messages are elided.
-/

/-- Whitespace stripping from both ends (`str.strip()`). -/
def stripWs (l : List Char) : List Char :=
  ((l.dropWhile Char.isWhitespace).reverse.dropWhile Char.isWhitespace).reverse

/-- Case-insensitive exchange tag: `sh`/`sz` in any letter case, lowered. -/
def exchangeOf (c1 c2 : Char) : Option String :=
  if c1 = 's' ∨ c1 = 'S' then
    if c2 = 'h' ∨ c2 = 'H' then some ("sh")
    else if c2 = 'z' ∨ c2 = 'Z' then some ("sz")
    else none
  else none

/-- Exactly six ASCII digits. -/
def sixDigits (l : List Char) : Bool := l.length == 6 && l.all Char.isDigit

/-- Consume one optional literal dot, as the deterministic reading of the
regex fragment `[\.]?` followed by a non-dot class. -/
def dropOptDot : List Char → List Char
  | '.' :: t => t
  | t => t

/-- Full match of `(?i)(sh|sz)[\.]?(\d{6})`, returning the normalized
`ex.num` on success. -/
def matchExchThenDigits (l : List Char) : Option String :=
  match l with
  | c1 :: c2 :: rest =>
    match exchangeOf c1 c2 with
    | some ex =>
      if sixDigits (dropOptDot rest) then
        some (ex ++ "." ++ String.mk (dropOptDot rest))
      else none
    | none => none
  | _ => none

/-- Full match of `(\d{6})[\.]?(?i)(sh|sz)` (global-flag semantics),
returning the normalized `ex.num`. -/
def matchDigitsThenExch (l : List Char) : Option String :=
  if sixDigits (l.take 6) then
    match dropOptDot (l.drop 6) with
    | [c1, c2] =>
      match exchangeOf c1 c2 with
      | some ex => some (ex ++ "." ++ String.mk (l.take 6))
      | none => none
    | _ => none
  else none

/-- Full match of bare `(\d{6})`: `sh.` for codes starting with `6`,
otherwise `sz.`. -/
def matchBareDigits (l : List Char) : Option String :=
  if sixDigits l then
    some ((if l.headD ' ' = '6' then "sh" else "sz") ++ "." ++ String.mk l)
  else none

/-- `normalize_stock_code` (lines 20-67): strip, require a non-empty code,
then try the three patterns in order; on no match (or an empty input)
return an error-message string. -/
def normalize_stock_code (code : String) : String :=
  let raw := stripWs code.data
  if raw.isEmpty then "错误: code 是必需的。"
  else
    match matchExchThenDigits raw with
    | some r => r
    | none =>
      match matchDigitsThenExch raw with
      | some r => r
      | none =>
        match matchBareDigits raw with
        | some r => r
        | none => "错误: 不支持的代码格式。示例: sh.600000, 600000, 000001.SZ。"

/-- An error-message return of the helper tools: starts with 错误. -/
def isErrorMessage (s : String) : Bool := (("错误").data).isPrefixOf s.data

/-- Well-formed normalized code: `sh.` or `sz.` followed by six digits. -/
def GoodCode (s : String) : Prop :=
  ∃ ds : List Char, ds.length = 6 ∧ (∀ c ∈ ds, c.isDigit = true) ∧
    (s = "sh" ++ "." ++ String.mk ds ∨ s = "sz" ++ "." ++ String.mk ds)

/-- Trace of a fully successful invocation (login returns status 0 and the
logout call returns), independent of log message and body. -/
theorem runGuard_ok_trace (lm : String) (bd : BodyResult) :
    (runGuard ⟨none, "0", lm, bd, none⟩).1 =
      [FdEvent.saveFd, FdEvent.redirectNull, FdEvent.loginCall, FdEvent.restoreFd,
       FdEvent.bodyRun, FdEvent.saveFd, FdEvent.redirectNull, FdEvent.logoutCall,
       FdEvent.restoreFd] := rfl

/-- Trace of an invocation where login succeeds but the logout call raises:
the final restore is missing. -/
theorem runGuard_logoutRaise_trace (lm : String) (bd : BodyResult) (e : String) :
    (runGuard ⟨none, "0", lm, bd, some e⟩).1 =
      [FdEvent.saveFd, FdEvent.redirectNull, FdEvent.loginCall, FdEvent.restoreFd,
       FdEvent.bodyRun, FdEvent.saveFd, FdEvent.redirectNull, FdEvent.logoutCall] := rfl

/-- C1: the claim asserts that a failure of the logout call never overrides
or masks the original outcome of the body.  Counterexample: login succeeds
and the body returns 7, but `bs.logout()` raises; the exception escapes the
bare `finally` block and replaces the body's return value. -/
theorem C1_counterexample :
    loginSucceeds guardLogoutBoom ∧
    guardLogoutBoom.body = BodyResult.val 7 ∧
    (runGuard guardLogoutBoom).2 = GuardOutcome.raised ("logout boom") ∧
    (runGuard guardLogoutBoom).2 ≠ GuardOutcome.ok 7 := by
  refine ⟨⟨rfl, rfl⟩, rfl, rfl, by decide⟩

/-- C1 (amended): for every invocation whose login succeeds, logout is
attempted exactly once, strictly after the body runs, on the normal-return
path and on every exception path of the body; when the logout call returns,
the guard's outcome is exactly the body's outcome, but when the logout call
itself raises, that exception replaces the original outcome of the body. -/
theorem C1_amended_logout_once_after_body (b : GuardBehavior)
    (h1 : b.loginRaises = none) (h2 : b.loginCode = "0") :
    (runGuard b).1.count FdEvent.logoutCall = 1 ∧
    (runGuard b).1.count FdEvent.bodyRun = 1 ∧
    (runGuard b).1.indexOf FdEvent.bodyRun < (runGuard b).1.indexOf FdEvent.logoutCall ∧
    (b.logoutRaises = none → (runGuard b).2 = bodyOutcome b.body) ∧
    (∀ e, b.logoutRaises = some e → (runGuard b).2 = GuardOutcome.raised e) := by
  obtain ⟨lr, lc, lm, bd, lo⟩ := b
  dsimp only at h1 h2
  subst h1
  subst h2
  cases lo with
  | none =>
      rw [runGuard_ok_trace]
      refine ⟨by decide, by decide, by decide, fun _ => rfl, fun e h => by simp at h⟩
  | some e =>
      rw [runGuard_logoutRaise_trace]
      refine ⟨by decide, by decide, by decide, fun h => by simp at h,
        fun e2 h => by cases h; rfl⟩

/-- C1 (amended) witness: at the concrete behaviour `guardLogoutBoom`,
logout is attempted exactly once and the logout failure replaces the
body's return value. -/
theorem C1_amended_witness :
    (runGuard guardLogoutBoom).1.count FdEvent.logoutCall = 1 ∧
    (runGuard guardLogoutBoom).2 = GuardOutcome.raised ("logout boom") :=
  ⟨(C1_amended_logout_once_after_body guardLogoutBoom rfl rfl).1,
   (C1_amended_logout_once_after_body guardLogoutBoom rfl rfl).2.2.2.2 _ rfl⟩

/-- C2: the claim asserts stdout is restored on every path, including when
the login call itself raises.  Counterexample: if `bs.login()` raises, the
restore at src/src/utils.py line 53 is skipped and the process exits the
guard with stdout still redirected to devnull. -/
theorem C2_counterexample :
    guardLoginBoom.loginRaises = some ("network down") ∧
    redirectedAfter (runGuard guardLoginBoom).1 = true :=
  ⟨rfl, rfl⟩

/-- C2 (amended): stdout is suppressed exactly for the duration of the
login and logout calls and restored afterward on every path on which the
login call and the logout call themselves return (including the path where
login returns a non-zero status and `LoginError` is raised); if the login
or logout call raises, the restoration is skipped. -/
theorem C2_amended_restore_when_calls_return (b : GuardBehavior)
    (h1 : b.loginRaises = none) (h2 : b.logoutRaises = none) :
    redirectedAfter (runGuard b).1 = false ∧
    redirectStateAt FdEvent.loginCall (runGuard b).1 = some true ∧
    (b.loginCode = "0" →
      redirectStateAt FdEvent.bodyRun (runGuard b).1 = some false ∧
      redirectStateAt FdEvent.logoutCall (runGuard b).1 = some true) := by
  obtain ⟨lr, lc, lm, bd, lo⟩ := b
  dsimp only at h1 h2
  subst h1
  subst h2
  by_cases hc : lc = "0"
  · subst hc
    rw [runGuard_ok_trace]
    refine ⟨by decide, by decide, fun _ => ⟨by decide, by decide⟩⟩
  · refine ⟨?_, ?_, fun h => absurd h hc⟩
    · simp [runGuard, redirectedAfter, hc]
    · simp [runGuard, redirectStateAt, hc]

/-- C2 (amended) witness: at the concrete behaviour `guardClean`, stdout is
restored at exit, and the body runs unsuppressed while login runs
suppressed. -/
theorem C2_amended_witness :
    redirectedAfter (runGuard guardClean).1 = false ∧
    redirectStateAt FdEvent.bodyRun (runGuard guardClean).1 = some false :=
  ⟨(C2_amended_restore_when_calls_return guardClean rfl rfl).1,
   ((C2_amended_restore_when_calls_return guardClean rfl rfl).2.2 rfl).1⟩

/-- The index-constituent fetch handles provider responses exactly like the
financial fetch (the source duplicates the logic verbatim). -/
theorem index_fetch_eq_financial : _fetch_index_constituent_data = _fetch_financial_data := rfl

/-- The macro-series fetch handles provider responses exactly like the
financial fetch. -/
theorem macro_fetch_eq_financial : _fetch_macro_data = _fetch_financial_data := rfl

/-- The K-line fetch handles provider responses exactly like the financial
fetch. -/
theorem khist_fetch_eq_financial : get_historical_k_data_query = _fetch_financial_data := rfl

/-- The boolean status test agrees with the spec-side proposition. -/
theorem isNoDataStatus_iff (code msg : String) :
    isNoDataStatus code msg = true ↔
      (code = "10002" ∨ containsSeq (("no record found").data) (lowerAscii msg).data = true) := by
  simp [isNoDataStatus, or_comm]

/-- The source's boolean classification in `_fetch_financial_data` agrees
with the spec-side rule `classifySpecRule`. -/
theorem classifySpecRule_eq (code msg : String) :
    classifySpecRule code msg =
      (if isNoDataStatus code msg then DataError.noDataFound else DataError.dataSource) := by
  unfold classifySpecRule
  by_cases h : isNoDataStatus code msg = true
  · rw [if_pos ((isNoDataStatus_iff code msg).mp h), if_pos h]
  · rw [if_neg (fun hp => h ((isNoDataStatus_iff code msg).mpr hp)),
      if_neg (fun hb => h hb)]

/-- C3: the claim asserts the NoData classification rule is applied
uniformly by every fetch method, including the trading-calendar fetch.
Counterexample: on the sentinel status code '10002' (message "no record
found"), `_fetch_financial_data` classifies NoData but `get_trade_dates`
raises a ProviderError. -/
theorem C3_counterexample :
    sentinelResp.error_code = "10002" ∧
    _fetch_financial_data sentinelResp = Except.error DataError.noDataFound ∧
    get_trade_dates sentinelResp = Except.error DataError.dataSource := by
  refine ⟨rfl, rfl, rfl⟩

/-- C3 (amended): on every non-success status code, the financial, index
-constituent, macro-series and K-line fetches all classify by the spec's
rule (NoData for the sentinel '10002' or a case-insensitive "no record
found" message, ProviderError otherwise), but the trading-calendar fetch
`get_trade_dates` classifies every non-success status as ProviderError. -/
theorem C3_amended_classification (resp : ProviderResp) (h : resp.error_code ≠ "0") :
    _fetch_financial_data resp =
      Except.error (classifySpecRule resp.error_code resp.error_msg) ∧
    _fetch_index_constituent_data resp =
      Except.error (classifySpecRule resp.error_code resp.error_msg) ∧
    _fetch_macro_data resp =
      Except.error (classifySpecRule resp.error_code resp.error_msg) ∧
    get_historical_k_data_query resp =
      Except.error (classifySpecRule resp.error_code resp.error_msg) ∧
    get_trade_dates resp = Except.error DataError.dataSource := by
  have hfin : _fetch_financial_data resp =
      Except.error (classifySpecRule resp.error_code resp.error_msg) := by
    rw [classifySpecRule_eq]
    unfold _fetch_financial_data
    rw [if_pos h]
    by_cases hnd : isNoDataStatus resp.error_code resp.error_msg
    · rw [if_pos hnd, if_pos hnd]
    · rw [if_neg hnd, if_neg hnd]
  refine ⟨hfin, ?_, ?_, ?_, ?_⟩
  · rw [index_fetch_eq_financial]; exact hfin
  · rw [macro_fetch_eq_financial]; exact hfin
  · rw [khist_fetch_eq_financial]; exact hfin
  · unfold get_trade_dates
    rw [if_pos h]

/-- C3 (amended) witness: at the sentinel response, the financial fetch
follows the spec rule while the trading-calendar fetch raises
ProviderError. -/
theorem C3_amended_witness :
    _fetch_financial_data sentinelResp =
      Except.error (classifySpecRule (("10002")) (("no record found"))) ∧
    get_trade_dates sentinelResp = Except.error DataError.dataSource :=
  ⟨(C3_amended_classification sentinelResp (by decide)).1,
   (C3_amended_classification sentinelResp (by decide)).2.2.2.2⟩

/-- C4: whenever the provider reports success (status code '0') and the
drained cursor yields zero rows, every fetch of the generic pattern —
financial, index-constituent, macro-series, K-line, and the
trading-calendar fetch — raises NoData; moreover no fetch ever returns an
empty tabular result as a success. -/
theorem C4_empty_success_is_nodata (resp : ProviderResp)
    (h0 : resp.error_code = "0") (he : resp.rows = []) :
    (_fetch_financial_data resp = Except.error DataError.noDataFound ∧
     _fetch_index_constituent_data resp = Except.error DataError.noDataFound ∧
     _fetch_macro_data resp = Except.error DataError.noDataFound ∧
     get_historical_k_data_query resp = Except.error DataError.noDataFound ∧
     get_trade_dates resp = Except.error DataError.noDataFound) ∧
    (∀ r t, _fetch_financial_data r = Except.ok t → t.rows ≠ []) ∧
    (∀ r t, get_trade_dates r = Except.ok t → t.rows ≠ []) := by
  have hne : ¬ resp.error_code ≠ "0" := fun hc => hc h0
  have hef : resp.rows.isEmpty = true := by rw [he]; rfl
  have hfin : _fetch_financial_data resp = Except.error DataError.noDataFound := by
    unfold _fetch_financial_data
    rw [if_neg hne, if_pos hef]
  refine ⟨⟨hfin, ?_, ?_, ?_, ?_⟩, ?_, ?_⟩
  · rw [index_fetch_eq_financial]; exact hfin
  · rw [macro_fetch_eq_financial]; exact hfin
  · rw [khist_fetch_eq_financial]; exact hfin
  · unfold get_trade_dates
    rw [if_neg hne, if_pos hef]
  · intro r t ht
    unfold _fetch_financial_data at ht
    split at ht
    · split at ht <;> exact absurd ht (by simp)
    · split at ht
      · exact absurd ht (by simp)
      · rename_i hre
        cases ht
        simpa using hre
  · intro r t ht
    unfold get_trade_dates at ht
    split at ht
    · exact absurd ht (by simp)
    · split at ht
      · exact absurd ht (by simp)
      · rename_i hre
        cases ht
        simpa using hre

/-- C4 witness: a success status with zero rows yields NoData at a concrete
response. -/
theorem C4_witness :
    _fetch_financial_data ⟨"0", "", ["date"], []⟩ = Except.error DataError.noDataFound ∧
    get_trade_dates ⟨"0", "", ["calendar_date"], []⟩ = Except.error DataError.noDataFound :=
  ⟨(C4_empty_success_is_nodata ⟨"0", "", ["date"], []⟩ rfl rfl).1.1,
   (C4_empty_success_is_nodata ⟨"0", "", ["calendar_date"], []⟩ rfl rfl).1.2.2.2.2⟩

/-- C5: the claim asserts the reasoner converts every facade failure to the
conservative fallback and never returns an error message.  Counterexample:
when the single-day query raises (as the facade does on a NoData window),
`is_trading_day` returns the error-message string `"错误: …"` rather than
the fallback `"否"`. -/
theorem C5_counterexample :
    is_trading_day ("2099-01-01") (fun _ _ => Except.error ("NoDataFoundError")) =
      "错误: " ++ "NoDataFoundError" ∧
    "错误: " ++ "NoDataFoundError" ≠ "否" :=
  ⟨rfl, by decide⟩

/-- C5 (amended): every facade failure is caught and never re-raised, and
`get_latest_trading_date` does fall back to today's date; but
`is_trading_day`, `previous_trading_day` and `next_trading_day` return the
error-message string `"错误: " ++ e` instead of the conservative fallback
(`previous`/`next` fall back to the error text also when the anchor fails
to parse). -/
theorem C5_amended_error_conversion (e date : String) (today : Date)
    (f : String → String → Except String Frame)
    (hf : ∀ s t, f s t = Except.error e) :
    get_latest_trading_date today f = formatDate today ∧
    is_trading_day date f = "错误: " ++ e ∧
    (∀ d, parseDate date = some d → previous_trading_day date f = "错误: " ++ e) ∧
    (∀ d, parseDate date = some d → next_trading_day date f = "错误: " ++ e) ∧
    (parseDate date = none → previous_trading_day date f = "错误: " ++ parseErrorText) := by
  refine ⟨?_, ?_, ?_, ?_, ?_⟩
  · unfold get_latest_trading_date
    rw [hf]
  · unfold is_trading_day
    rw [hf]
  · intro d hd
    unfold previous_trading_day
    rw [hd]
    show (match f (formatDate (subDays d 30)) date with
      | Except.error e => "错误: " ++ e
      | Except.ok df => prevCore date df) = "错误: " ++ e
    rw [hf]
  · intro d hd
    unfold next_trading_day
    rw [hd]
    show (match f date (formatDate (addDays d 30)) with
      | Except.error e => "错误: " ++ e
      | Except.ok df => nextCore date df) = "错误: " ++ e
    rw [hf]
  · intro hd
    unfold previous_trading_day
    rw [hd]

/-- C5 (amended) witness: with a facade that always raises, the latest-day
tool falls back to today while `is_trading_day` surfaces the error text. -/
theorem C5_amended_witness :
    get_latest_trading_date ⟨2025, 1, 10⟩ (fun _ _ => Except.error ("X")) = "2025-01-10" ∧
    is_trading_day ("2025-01-02") (fun _ _ => Except.error ("X")) = "错误: X" :=
  ⟨((C5_amended_error_conversion ("X") ("2025-01-02") ⟨2025, 1, 10⟩
      (fun _ _ => Except.error ("X")) (fun _ _ => rfl)).1).trans (by decide),
   ((C5_amended_error_conversion ("X") ("2025-01-02") ⟨2025, 1, 10⟩
      (fun _ _ => Except.error ("X")) (fun _ _ => rfl)).2.1).trans (by decide)⟩

/-- Transitivity of the code-point lexicographic order. -/
theorem ltChars_trans (a : List Char) : ∀ b c, ltChars a b = true → ltChars b c = true →
    ltChars a c = true := by
  induction a with
  | nil =>
    intro b c hab hbc
    cases b with
    | nil => cases hab
    | cons bh bt =>
      cases c with
      | nil => cases hbc
      | cons ch ct => rfl
  | cons ahd atl ih =>
    intro b c hab hbc
    cases b with
    | nil => cases hab
    | cons bh bt =>
      cases c with
      | nil => cases hbc
      | cons ch ct =>
        unfold ltChars at hab hbc ⊢
        by_cases h1 : ahd < bh
        · by_cases h2 : bh < ch
          · rw [if_pos (lt_trans h1 h2)]
          · by_cases h3 : ch < bh
            · rw [if_neg h2, if_pos h3] at hbc
              cases hbc
            · have heq : bh = ch := le_antisymm (not_lt.mp h3) (not_lt.mp h2)
              have h5 : ahd < ch := by rw [← heq]; exact h1
              rw [if_pos h5]
        · by_cases h4 : bh < ahd
          · rw [if_neg h1, if_pos h4] at hab
            cases hab
          · have heq : ahd = bh := le_antisymm (not_lt.mp h4) (not_lt.mp h1)
            rw [if_neg h1, if_neg h4] at hab
            by_cases h2 : bh < ch
            · have h5 : ahd < ch := by rw [heq]; exact h2
              rw [if_pos h5]
            · by_cases h3 : ch < bh
              · rw [if_neg h2, if_pos h3] at hbc
                cases hbc
              · have heq2 : bh = ch := le_antisymm (not_lt.mp h3) (not_lt.mp h2)
                rw [if_neg h2, if_neg h3] at hbc
                have hac : ahd = ch := heq.trans heq2
                rw [if_neg (by rw [hac]; exact lt_irrefl ch),
                  if_neg (by rw [hac]; exact lt_irrefl ch)]
                exact ih bt ct hab hbc

/-- Two lists neither of which is below the other are equal. -/
theorem ltChars_connex (a : List Char) : ∀ b, ltChars a b = false → ltChars b a = false →
    a = b := by
  induction a with
  | nil =>
    intro b hab _
    cases b with
    | nil => rfl
    | cons bh bt => cases hab
  | cons ahd atl ih =>
    intro b hab hba
    cases b with
    | nil => cases hba
    | cons bh bt =>
      unfold ltChars at hab hba
      by_cases h1 : ahd < bh
      · rw [if_pos h1] at hab
        cases hab
      · by_cases h2 : bh < ahd
        · rw [if_pos h2] at hba
          cases hba
        · have heq : ahd = bh := le_antisymm (not_lt.mp h2) (not_lt.mp h1)
          rw [if_neg h1, if_neg h2] at hab
          rw [if_neg h2, if_neg h1] at hba
          rw [heq, ih bt hab hba]

/-- Strings with equal character data are equal. -/
theorem strData_inj {a b : String} (h : a.data = b.data) : a = b := by
  cases a
  cases b
  exact congrArg String.mk h

/-- Transitivity of `ltStr`. -/
theorem ltStr_trans (a b c : String) (h1 : ltStr a b = true) (h2 : ltStr b c = true) :
    ltStr a c = true := ltChars_trans a.data b.data c.data h1 h2

/-- Reflexivity of `leStr`. -/
theorem leStr_refl (a : String) : leStr a a = true := by
  simp [leStr]

/-- Transitivity of `leStr`. -/
theorem leStr_trans (a b c : String) (h1 : leStr a b = true) (h2 : leStr b c = true) :
    leStr a c = true := by
  simp only [leStr, Bool.or_eq_true, beq_iff_eq] at h1 h2 ⊢
  rcases h1 with h1 | rfl
  · rcases h2 with h2 | rfl
    · exact Or.inl (ltStr_trans a b c h1 h2)
    · exact Or.inl h1
  · exact h2

/-- Totality: when `a` is not strictly below `b`, `b` is at most `a`. -/
theorem leStr_total_of_not_lt (a b : String) (h : ltStr a b = false) : leStr b a = true := by
  by_cases hba : ltStr b a = true
  · simp [leStr, hba]
  · have hd : b.data = a.data :=
      ltChars_connex b.data a.data (by simpa using hba) h
    rw [strData_inj hd]
    exact leStr_refl a

/-- The later choice dominates its left argument. -/
theorem chooseLater_left (a b : String) : leStr a (chooseLater a b) = true := by
  unfold chooseLater
  cases h : ltStr a b with
  | true => simp [leStr, h]
  | false => simp [h, leStr_refl]

/-- The later choice dominates its right argument. -/
theorem chooseLater_right (a b : String) : leStr b (chooseLater a b) = true := by
  unfold chooseLater
  cases h : ltStr a b with
  | true => simp [h, leStr_refl]
  | false => simp [h, leStr_total_of_not_lt a b h]

/-- The later choice is one of its arguments. -/
theorem chooseLater_cases (a b : String) : chooseLater a b = a ∨ chooseLater a b = b := by
  unfold chooseLater
  cases h : ltStr a b with
  | true => exact Or.inr (by simp [h])
  | false => exact Or.inl (by simp [h])

/-- The earlier choice is below its left argument. -/
theorem chooseEarlier_left (a b : String) : leStr (chooseEarlier a b) a = true := by
  unfold chooseEarlier
  cases h : ltStr b a with
  | true => simp [leStr, h]
  | false => simp [h, leStr_refl]

/-- The earlier choice is below its right argument. -/
theorem chooseEarlier_right (a b : String) : leStr (chooseEarlier a b) b = true := by
  unfold chooseEarlier
  cases h : ltStr b a with
  | true => simp [h, leStr_refl]
  | false => simp [h, leStr_total_of_not_lt b a h]

/-- The earlier choice is one of its arguments. -/
theorem chooseEarlier_cases (a b : String) : chooseEarlier a b = a ∨ chooseEarlier a b = b := by
  unfold chooseEarlier
  cases h : ltStr b a with
  | true => exact Or.inr (by simp [h])
  | false => exact Or.inl (by simp [h])

/-- The running maximum never drops below its initial value. -/
theorem foldMax_ge_init (l : List String) (a : String) :
    leStr a (l.foldl chooseLater a) = true := by
  induction l generalizing a with
  | nil => exact leStr_refl a
  | cons b t ih =>
    rw [List.foldl_cons]
    exact leStr_trans a (chooseLater a b) _ (chooseLater_left a b) (ih (chooseLater a b))

/-- The running maximum dominates every list element. -/
theorem foldMax_ge_mem (l : List String) (a x : String) :
    x ∈ l → leStr x (l.foldl chooseLater a) = true := by
  induction l generalizing a with
  | nil =>
    intro hx
    cases hx
  | cons b t ih =>
    intro hx
    rw [List.foldl_cons]
    rcases List.mem_cons.mp hx with rfl | hxt
    · exact leStr_trans x (chooseLater a x) _ (chooseLater_right a x) (foldMax_ge_init t _)
    · exact ih (chooseLater a b) hxt

/-- The running maximum is the initial value or a list element. -/
theorem foldMax_attained (l : List String) (a : String) :
    l.foldl chooseLater a = a ∨ l.foldl chooseLater a ∈ l := by
  induction l generalizing a with
  | nil => exact Or.inl rfl
  | cons b t ih =>
    rw [List.foldl_cons]
    rcases ih (chooseLater a b) with h1 | h1
    · rw [h1]
      rcases chooseLater_cases a b with h2 | h2
      · exact Or.inl h2
      · exact Or.inr (by rw [h2]; exact List.mem_cons_self b t)
    · exact Or.inr (List.mem_cons_of_mem b h1)

/-- The running minimum never exceeds its initial value. -/
theorem foldMin_le_init (l : List String) (a : String) :
    leStr (l.foldl chooseEarlier a) a = true := by
  induction l generalizing a with
  | nil => exact leStr_refl a
  | cons b t ih =>
    rw [List.foldl_cons]
    exact leStr_trans _ (chooseEarlier a b) a (ih (chooseEarlier a b)) (chooseEarlier_left a b)

/-- The running minimum is below every list element. -/
theorem foldMin_le_mem (l : List String) (a x : String) :
    x ∈ l → leStr (l.foldl chooseEarlier a) x = true := by
  induction l generalizing a with
  | nil =>
    intro hx
    cases hx
  | cons b t ih =>
    intro hx
    rw [List.foldl_cons]
    rcases List.mem_cons.mp hx with rfl | hxt
    · exact leStr_trans _ (chooseEarlier a x) x (foldMin_le_init t _) (chooseEarlier_right a x)
    · exact ih (chooseEarlier a b) hxt

/-- The running minimum is the initial value or a list element. -/
theorem foldMin_attained (l : List String) (a : String) :
    l.foldl chooseEarlier a = a ∨ l.foldl chooseEarlier a ∈ l := by
  induction l generalizing a with
  | nil => exact Or.inl rfl
  | cons b t ih =>
    rw [List.foldl_cons]
    rcases ih (chooseEarlier a b) with h1 | h1
    · rw [h1]
      rcases chooseEarlier_cases a b with h2 | h2
      · exact Or.inl h2
      · exact Or.inr (by rw [h2]; exact List.mem_cons_self b t)
    · exact Or.inr (List.mem_cons_of_mem b h1)

/-- The boolean row filter of `prevCore` decides the spec-side candidate
predicate. -/
theorem prevFilter_iff (date : String) (df : Frame) (r : List String) :
    ((rowCell df.cols r (flagColOf df.cols) == "1" &&
      ltStr (rowCell df.cols r (dayColOf df.cols)) date) = true) ↔
      prevCandidate date df r := by
  simp [prevCandidate]

/-- The boolean row filter of `nextCore` decides the spec-side candidate
predicate. -/
theorem nextFilter_iff (date : String) (df : Frame) (r : List String) :
    ((rowCell df.cols r (flagColOf df.cols) == "1" &&
      ltStr date (rowCell df.cols r (dayColOf df.cols))) = true) ↔
      nextCandidate date df r := by
  simp [nextCandidate]

/-- C6: for every parsable anchor date, `previous_trading_day`
(resp. `next_trading_day`) queries exactly the window from 30 days before
the anchor to the anchor (resp. the anchor to 30 days after); on the
returned frame it yields the anchor unchanged when no flagged row lies
strictly below (resp. above) the anchor — in particular on an empty
frame — and otherwise returns the maximum (resp. minimum) day value among
such flagged rows. -/
theorem C6_window_and_selection (date : String) (d : Date)
    (hp : parseDate date = some d)
    (f : String → String → Except String Frame) :
    (previous_trading_day date f =
      (match f (formatDate (subDays d 30)) date with
       | Except.error e => "错误: " ++ e
       | Except.ok df => prevCore date df)) ∧
    (next_trading_day date f =
      (match f date (formatDate (addDays d 30)) with
       | Except.error e => "错误: " ++ e
       | Except.ok df => nextCore date df)) ∧
    (∀ df, frameEmpty df = true → prevCore date df = date ∧ nextCore date df = date) ∧
    (∀ df, (∀ row ∈ df.rows, ¬ prevCandidate date df row) → prevCore date df = date) ∧
    (∀ df, (∀ row ∈ df.rows, ¬ nextCandidate date df row) → nextCore date df = date) ∧
    (∀ df, frameEmpty df = false → ∀ row ∈ df.rows, prevCandidate date df row →
      (∃ row2 ∈ df.rows, prevCandidate date df row2 ∧
        prevCore date df = rowCell df.cols row2 (dayColOf df.cols)) ∧
      leStr (rowCell df.cols row (dayColOf df.cols)) (prevCore date df) = true ∧
      ltStr (prevCore date df) date = true) ∧
    (∀ df, frameEmpty df = false → ∀ row ∈ df.rows, nextCandidate date df row →
      (∃ row2 ∈ df.rows, nextCandidate date df row2 ∧
        nextCore date df = rowCell df.cols row2 (dayColOf df.cols)) ∧
      leStr (nextCore date df) (rowCell df.cols row (dayColOf df.cols)) = true ∧
      ltStr date (nextCore date df) = true) := by
  refine ⟨?_, ?_, ?_, ?_, ?_, ?_, ?_⟩
  · unfold previous_trading_day
    rw [hp]
  · unfold next_trading_day
    rw [hp]
  · intro df h
    constructor <;> simp [prevCore, nextCore, h]
  · intro df hno
    cases hb : frameEmpty df with
    | true => simp [prevCore, hb]
    | false =>
      have hfil : df.rows.filter
          (fun r => rowCell df.cols r (flagColOf df.cols) == "1" &&
            ltStr (rowCell df.cols r (dayColOf df.cols)) date) = [] := by
        rw [List.filter_eq_nil_iff]
        intro a ha hpa
        exact hno a ha ((prevFilter_iff date df a).mp hpa)
      simp [prevCore, hb, hfil]
  · intro df hno
    cases hb : frameEmpty df with
    | true => simp [nextCore, hb]
    | false =>
      have hfil : df.rows.filter
          (fun r => rowCell df.cols r (flagColOf df.cols) == "1" &&
            ltStr date (rowCell df.cols r (dayColOf df.cols))) = [] := by
        rw [List.filter_eq_nil_iff]
        intro a ha hpa
        exact hno a ha ((nextFilter_iff date df a).mp hpa)
      simp [nextCore, hb, hfil]
  · intro df hne row hrow hcand
    have hmem : row ∈ df.rows.filter
        (fun r => rowCell df.cols r (flagColOf df.cols) == "1" &&
          ltStr (rowCell df.cols r (dayColOf df.cols)) date) :=
      List.mem_filter.mpr ⟨hrow, (prevFilter_iff date df row).mpr hcand⟩
    cases hfl : df.rows.filter
        (fun r => rowCell df.cols r (flagColOf df.cols) == "1" &&
          ltStr (rowCell df.cols r (dayColOf df.cols)) date) with
    | nil =>
      rw [hfl] at hmem
      cases hmem
    | cons r rs =>
      have hrcl : ∀ x ∈ r :: rs, x ∈ df.rows ∧ prevCandidate date df x := by
        intro x hx
        rw [← hfl] at hx
        have hx2 := List.mem_filter.mp hx
        exact ⟨hx2.1, (prevFilter_iff date df x).mp hx2.2⟩
      have hcore : prevCore date df =
          (rs.map (fun row => rowCell df.cols row (dayColOf df.cols))).foldl
            chooseLater (rowCell df.cols r (dayColOf df.cols)) := by
        simp only [prevCore, hne, Bool.false_eq_true, if_false, hfl]
      have hatt : ∃ row2 ∈ df.rows, prevCandidate date df row2 ∧
          prevCore date df = rowCell df.cols row2 (dayColOf df.cols) := by
        rcases foldMax_attained
            (rs.map (fun row => rowCell df.cols row (dayColOf df.cols)))
            (rowCell df.cols r (dayColOf df.cols)) with hA | hA
        · have hr := hrcl r (List.mem_cons_self r rs)
          exact ⟨r, hr.1, hr.2, hcore.trans hA⟩
        · rcases List.mem_map.mp hA with ⟨row2, hrow2, hval⟩
          have hr := hrcl row2 (List.mem_cons_of_mem r hrow2)
          exact ⟨row2, hr.1, hr.2, by rw [hcore, hval]⟩
      refine ⟨hatt, ?_, ?_⟩
      · rw [hcore]
        rw [hfl] at hmem
        rcases List.mem_cons.mp hmem with rfl | hmem2
        · exact foldMax_ge_init _ _
        · exact foldMax_ge_mem _ _ _
            (List.mem_map.mpr ⟨row, hmem2, rfl⟩)
      · rcases hatt with ⟨row2, _, hc2, hv2⟩
        rw [hv2]
        exact hc2.2
  · intro df hne row hrow hcand
    have hmem : row ∈ df.rows.filter
        (fun r => rowCell df.cols r (flagColOf df.cols) == "1" &&
          ltStr date (rowCell df.cols r (dayColOf df.cols))) :=
      List.mem_filter.mpr ⟨hrow, (nextFilter_iff date df row).mpr hcand⟩
    cases hfl : df.rows.filter
        (fun r => rowCell df.cols r (flagColOf df.cols) == "1" &&
          ltStr date (rowCell df.cols r (dayColOf df.cols))) with
    | nil =>
      rw [hfl] at hmem
      cases hmem
    | cons r rs =>
      have hrcl : ∀ x ∈ r :: rs, x ∈ df.rows ∧ nextCandidate date df x := by
        intro x hx
        rw [← hfl] at hx
        have hx2 := List.mem_filter.mp hx
        exact ⟨hx2.1, (nextFilter_iff date df x).mp hx2.2⟩
      have hcore : nextCore date df =
          (rs.map (fun row => rowCell df.cols row (dayColOf df.cols))).foldl
            chooseEarlier (rowCell df.cols r (dayColOf df.cols)) := by
        simp only [nextCore, hne, Bool.false_eq_true, if_false, hfl]
      have hatt : ∃ row2 ∈ df.rows, nextCandidate date df row2 ∧
          nextCore date df = rowCell df.cols row2 (dayColOf df.cols) := by
        rcases foldMin_attained
            (rs.map (fun row => rowCell df.cols row (dayColOf df.cols)))
            (rowCell df.cols r (dayColOf df.cols)) with hA | hA
        · have hr := hrcl r (List.mem_cons_self r rs)
          exact ⟨r, hr.1, hr.2, hcore.trans hA⟩
        · rcases List.mem_map.mp hA with ⟨row2, hrow2, hval⟩
          have hr := hrcl row2 (List.mem_cons_of_mem r hrow2)
          exact ⟨row2, hr.1, hr.2, by rw [hcore, hval]⟩
      refine ⟨hatt, ?_, ?_⟩
      · rw [hcore]
        rw [hfl] at hmem
        rcases List.mem_cons.mp hmem with rfl | hmem2
        · exact foldMin_le_init _ _
        · exact foldMin_le_mem _ _ _
            (List.mem_map.mpr ⟨row, hmem2, rfl⟩)
      · rcases hatt with ⟨row2, _, hc2, hv2⟩
        rw [hv2]
        exact hc2.2

/-- C6 witness: on a concrete 30-day window, the previous trading day before
2025-06-15 is the maximum flagged date strictly below it, 2025-06-13, and
the next trading day after 2025-06-13 is 2025-06-15. -/
theorem C6_witness :
    previous_trading_day ("2025-06-15") (fun _ _ => Except.ok demoCalendar) =
      "2025-06-13" ∧
    next_trading_day ("2025-06-13") (fun _ _ => Except.ok demoCalendar) =
      "2025-06-15" :=
  ⟨((C6_window_and_selection ("2025-06-15") ⟨2025, 6, 15⟩ (by decide)
      (fun _ _ => Except.ok demoCalendar)).1).trans (by decide),
   ((C6_window_and_selection ("2025-06-13") ⟨2025, 6, 13⟩ (by decide)
      (fun _ _ => Except.ok demoCalendar)).2.1).trans (by decide)⟩

/-- C7: with period "recent", an anchor of January 10 (before the 15th)
starts the window in November of the previous year with the end ISO date in
January of the current year; an anchor of January 20 (on/after the 15th)
starts it in December of the previous year; and for any anchor day in
February of a non-leap year the end-of-range day clamps to at most 28. -/
theorem C7_recent_year_wrap_and_february_clamp (y : Int) (dd : Nat)
    (hleap : isLeapYear y = false) :
    ((get_market_analysis_timeframe ("recent") ⟨y, 1, 10⟩).startMonth = 11 ∧
     (get_market_analysis_timeframe ("recent") ⟨y, 1, 10⟩).startYear = y - 1 ∧
     (get_market_analysis_timeframe ("recent") ⟨y, 1, 10⟩).endYear = y ∧
     (get_market_analysis_timeframe ("recent") ⟨y, 1, 10⟩).endMonth = 1 ∧
     (get_market_analysis_timeframe ("recent") ⟨y, 1, 10⟩).endDay = 10) ∧
    ((get_market_analysis_timeframe ("recent") ⟨y, 1, 20⟩).startMonth = 12 ∧
     (get_market_analysis_timeframe ("recent") ⟨y, 1, 20⟩).startYear = y - 1) ∧
    (get_market_analysis_timeframe ("recent") ⟨y, 2, dd⟩).endDay ≤ 28 := by
  refine ⟨⟨rfl, rfl, rfl, rfl, rfl⟩, ⟨rfl, rfl⟩, ?_⟩
  show min (daysInMonth y 2) dd ≤ 28
  simp only [daysInMonth, if_pos rfl, hleap, Bool.false_eq_true, if_false]
  exact le_trans (Nat.min_le_left 28 dd) (le_refl 28)

/-- C7 witness: at the concrete non-leap year 2025 the January anchors wrap
to the previous year and a February anchor day of 30 clamps to 28. -/
theorem C7_witness :
    (get_market_analysis_timeframe ("recent") ⟨2025, 1, 10⟩).startMonth = 11 ∧
    (get_market_analysis_timeframe ("recent") ⟨2025, 1, 20⟩).startMonth = 12 ∧
    (get_market_analysis_timeframe ("recent") ⟨2025, 2, 30⟩).endDay ≤ 28 :=
  ⟨(C7_recent_year_wrap_and_february_clamp 2025 30 (by decide)).1.1,
   (C7_recent_year_wrap_and_february_clamp 2025 30 (by decide)).2.1.1,
   (C7_recent_year_wrap_and_february_clamp 2025 30 (by decide)).2.2⟩

/-- C9: for every period keyword outside the four documented ones, the
computation falls through to the final branch without any error: the start
month is December of the previous year when the anchor is in January and
otherwise the previous month of the current year, the middle month equals
the start month, and for anchors on/after the 15th the whole result
coincides with the "recent" branch. -/
theorem C9_unknown_period_fallthrough (p : String) (y : Int) (m dd : Nat)
    (hp1 : p ≠ "recent") (hp2 : p ≠ "quarter") (hp3 : p ≠ "half_year")
    (hp4 : p ≠ "year") :
    ((get_market_analysis_timeframe p ⟨y, m, dd⟩).startYear =
        (if m = 1 then y - 1 else y) ∧
     (get_market_analysis_timeframe p ⟨y, m, dd⟩).startMonth =
        (if m = 1 then 12 else m - 1) ∧
     (get_market_analysis_timeframe p ⟨y, m, dd⟩).middleYear =
        (get_market_analysis_timeframe p ⟨y, m, dd⟩).startYear ∧
     (get_market_analysis_timeframe p ⟨y, m, dd⟩).middleMonth =
        (get_market_analysis_timeframe p ⟨y, m, dd⟩).startMonth) ∧
    (15 ≤ dd →
      get_market_analysis_timeframe p ⟨y, m, dd⟩ =
        get_market_analysis_timeframe ("recent") ⟨y, m, dd⟩) := by
  constructor
  · by_cases hm : m = 1
    · subst hm
      simp [get_market_analysis_timeframe, hp1, hp2, hp3, hp4]
    · simp [get_market_analysis_timeframe, hp1, hp2, hp3, hp4, hm]
  · intro hdd
    have hlt : ¬ dd < 15 := Nat.not_lt.mpr hdd
    simp [get_market_analysis_timeframe, hp1, hp2, hp3, hp4, hlt]

/-- C9 witness: an unknown period keyword at a mid-month January anchor
produces exactly the "recent" result, starting in December of the previous
year. -/
theorem C9_witness :
    (get_market_analysis_timeframe ("latest") ⟨2025, 1, 20⟩).startMonth = 12 ∧
    get_market_analysis_timeframe ("latest") ⟨2025, 1, 20⟩ =
      get_market_analysis_timeframe ("recent") ⟨2025, 1, 20⟩ :=
  ⟨by
    rw [(C9_unknown_period_fallthrough ("latest") 2025 1 20 (by decide) (by decide)
      (by decide) (by decide)).1.2.1]
    decide,
   (C9_unknown_period_fallthrough ("latest") 2025 1 20 (by decide) (by decide)
      (by decide) (by decide)).2 (by decide)⟩

/-- C8: the claim asserts that every field-selection list containing a
non-string entry fails validation before any provider call.
Counterexample: `get_stock_basic_info` with the field list `[1]` queries
the provider first (one recorded call) and raises InvalidInput only
afterwards, when the post-fetch column intersection comes up empty. -/
theorem C8_counterexample :
    (get_stock_basic_info (some [PyVal.pyother]) true
      ⟨"0", "", ["code"], [["sh.600000"]]⟩).2 = 1 ∧
    (get_stock_basic_info (some [PyVal.pyother]) true
      ⟨"0", "", ["code"], [["sh.600000"]]⟩).1 = Except.error DataError.valueError := by
  constructor <;> rfl

/-- C8 (amended): the periodic-report tool validates the year and quarter
before its data-source method runs (zero provider calls, and the output is
exactly one of the two validation error messages), and the K-line fetch
validates its field list before login and query (zero provider calls,
`ValueError`); but `get_stock_basic_info` performs no up-front field
validation — on a successful fetch with a non-string entry among otherwise
unmatched fields, the provider records one call and `ValueError` arises
only after it. -/
theorem C8_amended_validation (year : String) (quarter : Int)
    (method : String → Int → Except DataError Frame) (render : Frame → String)
    (fs : List PyVal) (loginOk : Bool) (resp : ProviderResp)
    (hy : isdigitStr year = false ∨ year.length ≠ 4 ∨ quarter < 1 ∨ 4 < quarter)
    (hfs : PyVal.pyother ∈ fs) :
    ((call_financial_data_tool year quarter method render).2 = 0 ∧
     ((call_financial_data_tool year quarter method render).1 =
        "错误: 无效的年份 " ++ year ++ "。请输入4位数字的年份。" ∨
      (call_financial_data_tool year quarter method render).1 =
        "错误: 无效的季度 " ++ toString quarter ++ "。必须在 1 到 4 之间。")) ∧
    (_format_fields (some fs) DEFAULT_K_FIELDS = Except.error DataError.valueError) ∧
    ((get_historical_k_data (some fs) loginOk resp).2 = 0 ∧
     (get_historical_k_data (some fs) loginOk resp).1 =
        Except.error DataError.valueError) := by
  have hempty : fs.isEmpty = false := by
    cases fs with
    | nil => cases hfs
    | cons a l => rfl
  have hall : fs.all
      (fun f => match f with | PyVal.pystr _ => true | PyVal.pyother => false) = false := by
    cases hx : fs.all
        (fun f => match f with | PyVal.pystr _ => true | PyVal.pyother => false) with
    | false => rfl
    | true =>
      have hcontra := List.all_eq_true.mp hx PyVal.pyother hfs
      cases hcontra
  have hfmt : _format_fields (some fs) DEFAULT_K_FIELDS =
      Except.error DataError.valueError := by
    show (if fs.isEmpty = true then
        Except.ok (String.intercalate (",") DEFAULT_K_FIELDS)
      else if fs.all
          (fun f => match f with | PyVal.pystr _ => true | PyVal.pyother => false) = true
      then Except.ok (String.intercalate (",")
        (fs.map (fun f => match f with | PyVal.pystr s => s | PyVal.pyother => "")))
      else Except.error DataError.valueError) = Except.error DataError.valueError
    rw [hempty, if_neg Bool.false_ne_true, hall, if_neg Bool.false_ne_true]
  refine ⟨?_, hfmt, ?_⟩
  · by_cases hc1 : isdigitStr year = false ∨ year.length ≠ 4
    · unfold call_financial_data_tool
      rw [if_pos hc1]
      exact ⟨rfl, Or.inl rfl⟩
    · have hc2 : quarter < 1 ∨ 4 < quarter := by
        rcases hy with h | h | h | h
        · exact absurd (Or.inl h) hc1
        · exact absurd (Or.inr h) hc1
        · exact Or.inl h
        · exact Or.inr h
      unfold call_financial_data_tool
      rw [if_neg hc1, if_pos hc2]
      exact ⟨rfl, Or.inr rfl⟩
  · unfold get_historical_k_data
    rw [hfmt]
    exact ⟨rfl, rfl⟩

/-- C8 (amended) witness: a non-digit year and an out-of-range quarter make
zero provider calls, as does the K-line fetch on a non-string field list. -/
theorem C8_amended_witness :
    (call_financial_data_tool ("abcd") 5
      (fun _ _ => Except.ok ⟨[], []⟩) (fun _ => "")).2 = 0 ∧
    (get_historical_k_data (some [PyVal.pyother]) true sentinelResp).2 = 0 :=
  ⟨(C8_amended_validation ("abcd") 5 (fun _ _ => Except.ok ⟨[], []⟩) (fun _ => "")
      [PyVal.pyother] true sentinelResp (Or.inl (by decide))
      (List.mem_singleton.mpr rfl)).1.1,
   (C8_amended_validation ("abcd") 5 (fun _ _ => Except.ok ⟨[], []⟩) (fun _ => "")
      [PyVal.pyother] true sentinelResp (Or.inl (by decide))
      (List.mem_singleton.mpr rfl)).2.2.1⟩

/-- An ASCII digit is not whitespace. -/
theorem digit_not_ws (c : Char) (h : c.isDigit = true) : c.isWhitespace = false := by
  cases hws : c.isWhitespace with
  | false => rfl
  | true =>
    simp only [Char.isWhitespace, Bool.or_eq_true, decide_eq_true_eq] at hws
    rcases hws with ((h1 | h1) | h1) | h1 <;> subst h1 <;> exact absurd h (by decide)

/-- `dropWhile` is the identity on a list whose members all fail the
predicate. -/
theorem dropWhile_no (p : Char → Bool) (l : List Char) (h : ∀ c ∈ l, p c = false) :
    List.dropWhile p l = l := by
  cases l with
  | nil => rfl
  | cons x xs =>
    rw [List.dropWhile_cons, h x (List.mem_cons_self x xs), if_neg Bool.false_ne_true]

/-- Stripping is the identity on whitespace-free character lists. -/
theorem stripWs_id (l : List Char) (h : ∀ c ∈ l, Char.isWhitespace c = false) :
    stripWs l = l := by
  unfold stripWs
  rw [dropWhile_no _ l h,
    dropWhile_no _ l.reverse (fun c hc => h c (List.mem_reverse.mp hc)),
    List.reverse_reverse]

/-- The exchange tag produced by a successful prefix match is `sh` or `sz`. -/
theorem exchangeOf_shape (c1 c2 : Char) (ex : String) (h : exchangeOf c1 c2 = some ex) :
    ex = "sh" ∨ ex = "sz" := by
  unfold exchangeOf at h
  by_cases h1 : c1 = 's' ∨ c1 = 'S'
  · rw [if_pos h1] at h
    by_cases h2 : c2 = 'h' ∨ c2 = 'H'
    · rw [if_pos h2] at h
      exact Or.inl (Option.some.inj h).symm
    · rw [if_neg h2] at h
      by_cases h3 : c2 = 'z' ∨ c2 = 'Z'
      · rw [if_pos h3] at h
        exact Or.inr (Option.some.inj h).symm
      · rw [if_neg h3] at h
        cases h
  · rw [if_neg h1] at h
    cases h

/-- Any successful output of the first pattern is a well-formed code. -/
theorem matchExch_good (l : List Char) (r : String)
    (h : matchExchThenDigits l = some r) : GoodCode r := by
  cases l with
  | nil => cases h
  | cons c1 t =>
    cases t with
    | nil => cases h
    | cons c2 rest =>
      unfold matchExchThenDigits at h
      replace h : (match exchangeOf c1 c2 with
        | some ex => if sixDigits (dropOptDot rest) = true then
            some (ex ++ "." ++ String.mk (dropOptDot rest)) else none
        | none => none) = some r := h
      cases hex : exchangeOf c1 c2 with
      | none =>
        rw [hex] at h
        cases h
      | some ex =>
        rw [hex] at h
        replace h : (if sixDigits (dropOptDot rest) = true then
            some (ex ++ "." ++ String.mk (dropOptDot rest)) else none) = some r := h
        by_cases hsix : sixDigits (dropOptDot rest) = true
        · rw [if_pos hsix] at h
          cases h
          simp only [sixDigits, Bool.and_eq_true, beq_iff_eq, List.all_eq_true] at hsix
          rcases exchangeOf_shape c1 c2 ex hex with rfl | rfl
          · exact ⟨dropOptDot rest, hsix.1, hsix.2, Or.inl rfl⟩
          · exact ⟨dropOptDot rest, hsix.1, hsix.2, Or.inr rfl⟩
        · rw [if_neg hsix] at h
          cases h

/-- Any successful output of the second pattern is a well-formed code. -/
theorem matchDigits_good (l : List Char) (r : String)
    (h : matchDigitsThenExch l = some r) : GoodCode r := by
  unfold matchDigitsThenExch at h
  by_cases hsix : sixDigits (l.take 6) = true
  · rw [if_pos hsix] at h
    cases hd : dropOptDot (l.drop 6) with
    | nil =>
      rw [hd] at h
      cases h
    | cons c1 t =>
      cases t with
      | nil =>
        rw [hd] at h
        cases h
      | cons c2 t2 =>
        cases t2 with
        | cons c3 t3 =>
          rw [hd] at h
          cases h
        | nil =>
          rw [hd] at h
          replace h : (match exchangeOf c1 c2 with
            | some ex => some (ex ++ "." ++ String.mk (List.take 6 l))
            | none => none) = some r := h
          cases hex : exchangeOf c1 c2 with
          | none =>
            rw [hex] at h
            cases h
          | some ex =>
            rw [hex] at h
            replace h : some (ex ++ "." ++ String.mk (List.take 6 l)) = some r := h
            cases h
            simp only [sixDigits, Bool.and_eq_true, beq_iff_eq, List.all_eq_true] at hsix
            rcases exchangeOf_shape c1 c2 ex hex with rfl | rfl
            · exact ⟨l.take 6, hsix.1, hsix.2, Or.inl rfl⟩
            · exact ⟨l.take 6, hsix.1, hsix.2, Or.inr rfl⟩
  · rw [if_neg hsix] at h
    cases h

/-- Any successful output of the bare-digits pattern is a well-formed code. -/
theorem matchBare_good (l : List Char) (r : String)
    (h : matchBareDigits l = some r) : GoodCode r := by
  unfold matchBareDigits at h
  by_cases hsix : sixDigits l = true
  · rw [if_pos hsix] at h
    cases h
    simp only [sixDigits, Bool.and_eq_true, beq_iff_eq, List.all_eq_true] at hsix
    refine ⟨l, hsix.1, hsix.2, ?_⟩
    by_cases h6 : l.headD ' ' = '6'
    · rw [if_pos h6]
      exact Or.inl rfl
    · rw [if_neg h6]
      exact Or.inr rfl
  · rw [if_neg hsix] at h
    cases h

/-- Every return of `normalize_stock_code` is an error message or a
well-formed code. -/
theorem normalize_cases (code : String) :
    isErrorMessage (normalize_stock_code code) = true ∨
      GoodCode (normalize_stock_code code) := by
  simp only [normalize_stock_code]
  by_cases he : (stripWs code.data).isEmpty = true
  · rw [if_pos he]
    exact Or.inl (by decide)
  · rw [if_neg he]
    cases h1 : matchExchThenDigits (stripWs code.data) with
    | some r => exact Or.inr (matchExch_good _ r h1)
    | none =>
      cases h2 : matchDigitsThenExch (stripWs code.data) with
      | some r => exact Or.inr (matchDigits_good _ r h2)
      | none =>
        cases h3 : matchBareDigits (stripWs code.data) with
        | some r => exact Or.inr (matchBare_good _ r h3)
        | none => exact Or.inl (by decide)

/-- A list of length six has six members. -/
theorem list_len_six {α : Type} (l : List α) (h : l.length = 6) :
    ∃ a b c d e f, l = [a, b, c, d, e, f] := by
  cases l with
  | nil => cases h
  | cons a t1 =>
    cases t1 with
    | nil => cases h
    | cons b t2 =>
      cases t2 with
      | nil => cases h
      | cons c t3 =>
        cases t3 with
        | nil => cases h
        | cons d t4 =>
          cases t4 with
          | nil => cases h
          | cons e t5 =>
            cases t5 with
            | nil => cases h
            | cons f t6 =>
              cases t6 with
              | nil => exact ⟨a, b, c, d, e, f, rfl⟩
              | cons g t7 => simp at h

/-- `normalize_stock_code` fixes every well-formed code. -/
theorem normalize_fixes_good (s : String) (hg : GoodCode s) :
    normalize_stock_code s = s := by
  rcases hg with ⟨ds, hlen, hdig, hcase⟩
  rcases list_len_six ds hlen with ⟨d1, d2, d3, d4, d5, d6, rfl⟩
  have h1 := hdig d1 (by simp)
  have h2 := hdig d2 (by simp)
  have h3 := hdig d3 (by simp)
  have h4 := hdig d4 (by simp)
  have h5 := hdig d5 (by simp)
  have h6 := hdig d6 (by simp)
  have hsix : sixDigits [d1, d2, d3, d4, d5, d6] = true := by
    simp [sixDigits, h1, h2, h3, h4, h5, h6]
  rcases hcase with rfl | rfl
  · have hno : ∀ c ∈ ('s' :: 'h' :: '.' :: [d1, d2, d3, d4, d5, d6]),
        Char.isWhitespace c = false := by
      intro x hx
      simp only [List.mem_cons] at hx
      rcases hx with rfl | rfl | rfl | rfl | rfl | rfl | rfl | rfl | rfl | hx
      · decide
      · decide
      · decide
      · exact digit_not_ws x h1
      · exact digit_not_ws x h2
      · exact digit_not_ws x h3
      · exact digit_not_ws x h4
      · exact digit_not_ws x h5
      · exact digit_not_ws x h6
      · cases hx
    have hm : matchExchThenDigits ('s' :: 'h' :: '.' :: [d1, d2, d3, d4, d5, d6]) =
        some ("sh" ++ "." ++ String.mk [d1, d2, d3, d4, d5, d6]) := by
      have hstep : matchExchThenDigits ('s' :: 'h' :: '.' :: [d1, d2, d3, d4, d5, d6]) =
          (if sixDigits [d1, d2, d3, d4, d5, d6] = true
           then some ("sh" ++ "." ++ String.mk [d1, d2, d3, d4, d5, d6]) else none) := rfl
      rw [hstep, if_pos hsix]
    simp only [normalize_stock_code]
    rw [show ("sh" ++ "." ++ String.mk [d1, d2, d3, d4, d5, d6]).data =
        's' :: 'h' :: '.' :: [d1, d2, d3, d4, d5, d6] from rfl]
    rw [stripWs_id _ hno]
    rw [show ('s' :: 'h' :: '.' :: [d1, d2, d3, d4, d5, d6]).isEmpty = false from rfl,
      if_neg Bool.false_ne_true, hm]
  · have hno : ∀ c ∈ ('s' :: 'z' :: '.' :: [d1, d2, d3, d4, d5, d6]),
        Char.isWhitespace c = false := by
      intro x hx
      simp only [List.mem_cons] at hx
      rcases hx with rfl | rfl | rfl | rfl | rfl | rfl | rfl | rfl | rfl | hx
      · decide
      · decide
      · decide
      · exact digit_not_ws x h1
      · exact digit_not_ws x h2
      · exact digit_not_ws x h3
      · exact digit_not_ws x h4
      · exact digit_not_ws x h5
      · exact digit_not_ws x h6
      · cases hx
    have hm : matchExchThenDigits ('s' :: 'z' :: '.' :: [d1, d2, d3, d4, d5, d6]) =
        some ("sz" ++ "." ++ String.mk [d1, d2, d3, d4, d5, d6]) := by
      have hstep : matchExchThenDigits ('s' :: 'z' :: '.' :: [d1, d2, d3, d4, d5, d6]) =
          (if sixDigits [d1, d2, d3, d4, d5, d6] = true
           then some ("sz" ++ "." ++ String.mk [d1, d2, d3, d4, d5, d6]) else none) := rfl
      rw [hstep, if_pos hsix]
    simp only [normalize_stock_code]
    rw [show ("sz" ++ "." ++ String.mk [d1, d2, d3, d4, d5, d6]).data =
        's' :: 'z' :: '.' :: [d1, d2, d3, d4, d5, d6] from rfl]
    rw [stripWs_id _ hno]
    rw [show ('s' :: 'z' :: '.' :: [d1, d2, d3, d4, d5, d6]).isEmpty = false from rfl,
      if_neg Bool.false_ne_true, hm]

/-- C10: `normalize_stock_code` is idempotent on its successes — whenever
the result is not an error message, renormalizing it returns the same
string — and every successful output is `sh.` or `sz.` followed by exactly
six digits. -/
theorem C10_normalize_idempotent_and_shape (code : String)
    (h : isErrorMessage (normalize_stock_code code) = false) :
    normalize_stock_code (normalize_stock_code code) = normalize_stock_code code ∧
    GoodCode (normalize_stock_code code) := by
  rcases normalize_cases code with herr | hgood
  · rw [herr] at h
    cases h
  · exact ⟨normalize_fixes_good _ hgood, hgood⟩

/-- C10 witness: the bare code 600000 normalizes successfully and the
normalization is idempotent on it. -/
theorem C10_witness :
    isErrorMessage (normalize_stock_code ("600000")) = false ∧
    normalize_stock_code (normalize_stock_code ("600000")) =
      normalize_stock_code ("600000") :=
  ⟨by decide,
   (C10_normalize_idempotent_and_shape ("600000") (by decide)).1⟩

end AShare
